import Mathlib

/-!
# Rest-time: a work/rest interval timer (`src/c/rest-time.c`)

A shallow embedding of the countdown state machine, its persistence and
restart reconciliation, and the wake-up scheduling done on shutdown.

Conventions of the embedding:

* The file-level `static` variables of the C program are the fields of
  `Globals`; each C function that mutates them is a function on `Globals`.
* C `int` / `time_t` values are `Int`. The globals are meant within the range
  of a 32-bit `int`; `--x` and `x -= time(NULL)` are modelled on the values
  on which they do not overflow (signed overflow has no defined behaviour in
  C). The one place where a value computed from the clock is narrowed to 32
  bits, the argument of `persist_write_int` in `persist_status`, is reduced
  modulo `2^32` explicitly (`to_int32`).
* C's `%` truncates towards zero: it is `Int.tmod`.
* `time(NULL)` is an explicit argument (`now`).
* The persistent key/value storage is the record `Persist`, one optional
  field per key (`persist_exists` is `Option.isSome`).
* Haptic calls (`vibes_short_pulse`, `vibes_double_pulse`) are collected, in
  order, in a `List Vibe` returned next to the new state.
* Calls that only redraw the screen (`main_window_refresh`,
  `update_countdown`, `update_progressbar`, `update_clock_time`) read the
  globals and do not write them; they are left out.
-/

namespace RestTime

/-! ## Constants -/

def DEFAULT_WORK_INTERVAL : Int := 1800
def DEFAULT_REST_INTERVAL : Int := 300
def DEFAULT_OVERRUNABLE : Bool := true

/-! ## Data model -/

/-- The two vibration patterns the program asks of the watch. -/
inductive Vibe where
  | short_pulse
  | double_pulse
deriving DecidableEq

/-- The `static` variables of the program that hold the configuration and
the "3 key states". -/
structure Globals where
  config_work_interval : Int
  config_rest_interval : Int
  config_overrunable : Bool
  s_in_rest_mode : Bool
  s_countdown_paused : Bool
  s_countdown_seconds : Int
deriving DecidableEq

/-- The persistent storage: one optional value per `PERSIST_*` key. -/
structure Persist where
  countdown_expire : Option Int
  countdown_paused : Option Bool
  in_rest_mode : Option Bool
  work_interval : Option Int
  rest_interval : Option Int
  overrunable : Option Bool
deriving DecidableEq

/-- Storage in which no key exists (first ever run). -/
def emptyPersist : Persist :=
  { countdown_expire := none, countdown_paused := none, in_rest_mode := none,
    work_interval := none, rest_interval := none, overrunable := none }

/-! ## Operations -/

/-- The function `init_settings()`: every global is read from storage, or takes its default
when the key does not exist; a countdown value above 10000000 is an absolute
expiry time, from which the current time is subtracted. -/
def init_settings (p : Persist) (now : Int) : Globals :=
  let work : Int :=
    match p.work_interval with
    | some v => v
    | none => DEFAULT_WORK_INTERVAL
  let rest : Int :=
    match p.rest_interval with
    | some v => v
    | none => DEFAULT_REST_INTERVAL
  let overrunable : Bool :=
    match p.overrunable with
    | some b => b
    | none => DEFAULT_OVERRUNABLE
  let in_rest : Bool :=
    match p.in_rest_mode with
    | some b => b
    | none => false
  let paused : Bool :=
    match p.countdown_paused with
    | some b => b
    | none => true
  let seconds : Int :=
    match p.countdown_expire with
    | some v => v
    | none => work
  { config_work_interval := work
    config_rest_interval := rest
    config_overrunable := overrunable
    s_in_rest_mode := in_rest
    s_countdown_paused := paused
    s_countdown_seconds := if seconds > 10000000 then seconds - now else seconds }

/-- The function `start_mode(is_rest_mode)`. -/
def start_mode (is_rest_mode : Bool) (g : Globals) : Globals × List Vibe :=
  let g1 := { g with s_in_rest_mode := is_rest_mode }
  let r : Globals × List Vibe :=
    if is_rest_mode then
      ({ g1 with s_countdown_seconds := g1.config_rest_interval }, [Vibe.double_pulse])
    else
      ({ g1 with s_countdown_seconds := g1.config_work_interval }, [Vibe.short_pulse])
  ({ r.1 with s_countdown_paused := false }, r.2)

/-- The function `time_tick_handler(...)`, called once per second. -/
def time_tick_handler (g : Globals) : Globals × List Vibe :=
  if g.s_countdown_paused then
    (g, [])
  else
    let g1 := { g with s_countdown_seconds := g.s_countdown_seconds - 1 }
    if g1.s_countdown_seconds ≤ 0 ∧ g1.config_overrunable = false then
      start_mode (!g1.s_in_rest_mode) g1
    else if g1.s_countdown_seconds ≤ 0 ∧ g1.s_countdown_seconds.tmod 60 = 0 then
      (g1, [Vibe.short_pulse])
    else
      (g1, [])

/-- The function `persist_config()`. -/
def persist_config (p : Persist) (g : Globals) : Persist :=
  { p with
    work_interval := some g.config_work_interval
    rest_interval := some g.config_rest_interval
    overrunable := some g.config_overrunable }

/-- Narrowing of an integer to a 32-bit signed `int`: the value is reduced
modulo `2^32` into the range from `-2^31` to `2^31 - 1`. -/
def to_int32 (x : Int) : Int :=
  (x + 2147483648) % 4294967296 - 2147483648

/-- The function `persist_status()`. The value handed to `persist_write_int`
is a 32-bit integer, so `time(NULL) + s_countdown_seconds` is stored narrowed
to 32 bits. -/
def persist_status (p : Persist) (g : Globals) (now : Int) : Persist :=
  { p with
    countdown_expire :=
      some (to_int32 (if g.s_countdown_paused then g.s_countdown_seconds
                      else now + g.s_countdown_seconds))
    countdown_paused := some g.s_countdown_paused
    in_rest_mode := some g.s_in_rest_mode }

/-- The handler `up_single_click_handler`. -/
def up_single_click_handler (g : Globals) : Globals × List Vibe :=
  start_mode true g

/-- The handler `down_single_click_handler`. -/
def down_single_click_handler (g : Globals) : Globals × List Vibe :=
  start_mode false g

/-- The handler `select_single_click_handler`: toggle pause. -/
def select_single_click_handler (g : Globals) : Globals :=
  { g with s_countdown_paused := !g.s_countdown_paused }

/-- The local `next_vibra` of `deinit()`. -/
def next_vibra (g : Globals) : Int :=
  if g.s_countdown_seconds > 0 then g.s_countdown_seconds
  else 60 + g.s_countdown_seconds.tmod 60

/-- The local `wakeup_time` of `deinit()`. -/
def wakeup_time (g : Globals) (now : Int) : Int :=
  now - 15 + (if next_vibra g > 18 then next_vibra g else next_vibra g + 60)

/-- The function `deinit()`: the status is persisted (reading the clock at `now_persist`)
and, when the countdown is running, one wake-up is scheduled (the clock is
read again, at `now_wake`). The result is the storage and the instant handed
to `wakeup_schedule`, if any. -/
def deinit (p : Persist) (g : Globals) (now_persist now_wake : Int) :
    Persist × Option Int :=
  let p1 := persist_status p g now_persist
  if g.s_countdown_paused = false then
    (p1, some (wakeup_time g now_wake))
  else
    (p1, none)

/-! ## Derived notions used by the statements -/

/-- State after `n` consecutive ticks. -/
def ticks : Nat → Globals → Globals
  | 0, g => g
  | n + 1, g => ticks n (time_tick_handler g).1

/-- Vibrations fired by the `k`-th tick from `g` (`k = 1` is the next tick). -/
def tick_vibes (g : Globals) (k : Nat) : List Vibe :=
  (time_tick_handler (ticks (k - 1) g)).2

/-- The state with which a configuration starts: work mode, paused, the whole
work interval left. It is what `init_settings` builds on the first run and
what closing the settings menu resets to after a change of the work or rest
interval. -/
def initial (work rest : Int) (overrunable : Bool) : Globals :=
  { config_work_interval := work
    config_rest_interval := rest
    config_overrunable := overrunable
    s_in_rest_mode := false
    s_countdown_paused := true
    s_countdown_seconds := work }

/-- Shutdown at wall-clock time `t` followed by a start `D` seconds later:
`persist_status` writes the record, `init_settings` reads it back. The
configuration keys hold the current configuration (`persist_config`). -/
def restart (g : Globals) (t D : Int) : Globals :=
  init_settings (persist_status (persist_config emptyPersist g) g t) (t + D)

/-- The events that drive the timer. -/
inductive Op where
  | tick
  | toggle
  | start (is_rest_mode : Bool)
  | restart (t D : Int)
deriving DecidableEq

/-- One event applied to the globals. -/
def Op.apply : Op → Globals → Globals
  | Op.tick, g => (time_tick_handler g).1
  | Op.toggle, g => select_single_click_handler g
  | Op.start b, g => (start_mode b g).1
  | Op.restart t D, g => RestTime.restart g t D

/-- A sequence of events applied from left to right. -/
def run : List Op → Globals → Globals
  | [], g => g
  | op :: ops, g => run ops (op.apply g)

/-- A restart is admissible in `g` when the clock reading and the delay are
non-negative and, if the timer is running with overrun off, the delay does not
exceed the countdown and the expiry time `t + countdown` fits 32 bits (is
below `2^31`). Every other event is always admissible. -/
def Op.admissible : Op → Globals → Prop
  | Op.restart t D, g =>
      0 ≤ t ∧ 0 ≤ D ∧
        (g.s_countdown_paused = true ∨ g.config_overrunable = true ∨
          (D ≤ g.s_countdown_seconds ∧ t + g.s_countdown_seconds < 2147483648))
  | _, _ => True

/-- Every event of the sequence is admissible in the state it is applied to. -/
def admissible : List Op → Globals → Prop
  | [], _ => True
  | op :: ops, g => op.admissible g ∧ admissible ops (op.apply g)

/-- The invariant kept by admissible runs: durations between 1 and 10000000 and, with
overrun off, a countdown between 0 and 10000000. -/
def countdown_in_range (g : Globals) : Prop :=
  (0 < g.config_work_interval ∧ g.config_work_interval ≤ 10000000) ∧
  (0 < g.config_rest_interval ∧ g.config_rest_interval ≤ 10000000) ∧
  (g.config_overrunable = false →
    0 ≤ g.s_countdown_seconds ∧ g.s_countdown_seconds ≤ 10000000)

/-! ## Auxiliary lemmas -/

theorem tmod_sixty_eq_zero_iff (r : Int) : r.tmod 60 = 0 ↔ (60 : Int) ∣ r :=
  ⟨Int.dvd_of_tmod_eq_zero, Int.tmod_eq_zero_of_dvd⟩

/-- Membership of `{0, -60, -120, ...}` is being non-positive and divisible by
60, which is the test the tick handler makes with the truncating remainder. -/
theorem minute_boundary_iff (r : Int) :
    (r ≤ 0 ∧ r.tmod 60 = 0) ↔ ∃ m : Nat, r = -(60 * (m : Int)) := by
  rw [tmod_sixty_eq_zero_iff]
  constructor
  · rintro ⟨h0, c, hc⟩
    refine ⟨c.natAbs, ?_⟩
    have hc0 : c ≤ 0 := by omega
    have : (c.natAbs : Int) = -c := by omega
    rw [this, hc]; ring
  · rintro ⟨m, rfl⟩
    refine ⟨by omega, ⟨-(m : Int), by ring⟩⟩

/-- Narrowing leaves a value that fits 32 bits as it is. -/
theorem to_int32_of_fits (x : Int) (hlo : -2147483648 ≤ x) (hhi : x < 2147483648) :
    to_int32 x = x := by
  unfold to_int32
  omega

/-- A narrowed value fits 32 bits. -/
theorem to_int32_fits (x : Int) :
    -2147483648 ≤ to_int32 x ∧ to_int32 x < 2147483648 := by
  unfold to_int32
  omega

/-- A tick never touches the configuration. -/
theorem tick_config (g : Globals) :
    (time_tick_handler g).1.config_work_interval = g.config_work_interval ∧
    (time_tick_handler g).1.config_rest_interval = g.config_rest_interval ∧
    (time_tick_handler g).1.config_overrunable = g.config_overrunable := by
  rcases g with ⟨w, r, o, m, p, s⟩
  cases p <;> cases o <;> cases m <;>
    simp only [time_tick_handler, start_mode] <;> split_ifs <;> simp

/-- The tick handler on a running timer with overrun on. -/
theorem tick_running_overrun (g : Globals)
    (hrun : g.s_countdown_paused = false) (hov : g.config_overrunable = true) :
    time_tick_handler g =
      if g.s_countdown_seconds - 1 ≤ 0 ∧ (g.s_countdown_seconds - 1).tmod 60 = 0 then
        ({ g with s_countdown_seconds := g.s_countdown_seconds - 1 }, [Vibe.short_pulse])
      else
        ({ g with s_countdown_seconds := g.s_countdown_seconds - 1 }, []) := by
  simp only [time_tick_handler, hrun, hov, reduceCtorEq, and_false, if_false,
    Bool.false_eq_true]

/-- The truncating remainder of a non-positive number, in terms of the
Euclidean remainder of its opposite. -/
theorem tmod_sixty_of_nonpos (r : Int) (h : r ≤ 0) :
    r.tmod 60 = -((-r) % 60) := by
  have h1 : (-r).tmod 60 = (-r) % 60 := Int.tmod_eq_emod (by omega) (by decide)
  have h2 : (-r).tmod 60 = -(r.tmod 60) := by
    rw [Int.tmod_def, Int.tmod_def, Int.neg_tdiv]
    ring
  omega

/-- The state reached by `ticks` one tick later. -/
theorem ticks_succ (n : Nat) (g : Globals) :
    ticks (n + 1) g = (time_tick_handler (ticks n g)).1 := by
  induction n generalizing g with
  | zero => rfl
  | succ k ih =>
    show ticks (k + 1) (time_tick_handler g).1 = _
    rw [ih]
    rfl

/-- With overrun on, `k` ticks of a running timer subtract `k` from the
countdown and change nothing else. -/
theorem ticks_overrun (k : Nat) (g : Globals)
    (hrun : g.s_countdown_paused = false) (hov : g.config_overrunable = true) :
    ticks k g = { g with s_countdown_seconds := g.s_countdown_seconds - (k : Int) } := by
  induction k generalizing g with
  | zero => simp [ticks]
  | succ n ih =>
    have h1 : (time_tick_handler g).1 =
        { g with s_countdown_seconds := g.s_countdown_seconds - 1 } := by
      rw [tick_running_overrun g hrun hov]
      split_ifs <;> rfl
    show ticks n (time_tick_handler g).1 = _
    rw [h1, ih { g with s_countdown_seconds := g.s_countdown_seconds - 1 } hrun hov]
    simp only [Globals.mk.injEq, true_and]
    push_cast
    ring

/-- With overrun off, while fewer ticks than the countdown have elapsed, a
running timer has only had its countdown reduced, by the number of ticks. -/
theorem ticks_countdown (k : Nat) (g : Globals)
    (hrun : g.s_countdown_paused = false) (hk : (k : Int) < g.s_countdown_seconds) :
    ticks k g = { g with s_countdown_seconds := g.s_countdown_seconds - (k : Int) } := by
  induction k generalizing g with
  | zero => simp [ticks]
  | succ n ih =>
    have hpos : ¬ (g.s_countdown_seconds - 1 ≤ 0) := by push_cast at hk; omega
    have h1 : time_tick_handler g =
        ({ g with s_countdown_seconds := g.s_countdown_seconds - 1 }, []) := by
      simp only [time_tick_handler, hrun, hpos, false_and, if_false, Bool.false_eq_true]
    show ticks n (time_tick_handler g).1 = _
    have hk1 : (n : Int) < g.s_countdown_seconds - 1 := by push_cast at hk; omega
    rw [h1, ih { g with s_countdown_seconds := g.s_countdown_seconds - 1 } hrun hk1]
    simp only [Globals.mk.injEq, true_and]
    push_cast
    ring

/-- With overrun on, what the `k`-th tick of a running timer fires depends
only on the countdown value that tick reaches. -/
theorem tick_vibes_overrun (g : Globals) (k : Nat) (hk : 1 ≤ k)
    (hrun : g.s_countdown_paused = false) (hov : g.config_overrunable = true) :
    tick_vibes g k =
      if g.s_countdown_seconds - (k : Int) ≤ 0 ∧
          (g.s_countdown_seconds - (k : Int)).tmod 60 = 0 then
        [Vibe.short_pulse]
      else [] := by
  have hcast : g.s_countdown_seconds - ((k - 1 : Nat) : Int) - 1 =
      g.s_countdown_seconds - (k : Int) := by omega
  unfold tick_vibes
  rw [ticks_overrun (k - 1) g hrun hov,
    tick_running_overrun { g with s_countdown_seconds := g.s_countdown_seconds - ((k - 1 : Nat) : Int) }
      hrun hov]
  simp only [hcast]
  split_ifs <;> rfl

/-- On the first run (no key in storage) `init_settings` builds the initial
state of the default configuration, whatever the clock reading. -/
theorem init_settings_first_run (now : Int) :
    init_settings emptyPersist now =
      initial DEFAULT_WORK_INTERVAL DEFAULT_REST_INTERVAL DEFAULT_OVERRUNABLE := by
  simp [init_settings, emptyPersist, initial, DEFAULT_WORK_INTERVAL]

/-- A run, one event at a time. -/
theorem run_cons (op : Op) (ops : List Op) (g : Globals) :
    run (op :: ops) g = run ops (op.apply g) := rfl

/-- A run that begins with `n` ticks. -/
theorem run_ticks (n : Nat) (ops : List Op) (g : Globals) :
    run (List.replicate n Op.tick ++ ops) g = run ops (ticks n g) := by
  induction n generalizing g with
  | zero => rfl
  | succ k ih =>
    show run (List.replicate k Op.tick ++ ops) (time_tick_handler g).1 = _
    rw [ih]
    rfl

/-- Every admissible event keeps `countdown_in_range`. -/
theorem apply_countdown_in_range (op : Op) (g : Globals)
    (hg : countdown_in_range g) (hop : op.admissible g) :
    countdown_in_range (op.apply g) := by
  rcases g with ⟨w, r, o, m, p, s⟩
  obtain ⟨hw, hr, hs⟩ := hg
  simp only at hw hr hs
  cases op with
  | tick =>
    clear hop
    cases o
    · have hs1 := hs rfl
      cases p <;> cases m <;>
        simp only [Op.apply, time_tick_handler, start_mode, countdown_in_range] <;>
        split_ifs <;> first | (simp_all; done) | (simp_all; omega) | (simp; omega)
    · cases p <;>
        simp only [Op.apply, time_tick_handler, start_mode, countdown_in_range] <;>
        split_ifs <;> simp_all
  | toggle =>
    exact ⟨hw, hr, hs⟩
  | start b =>
    cases b <;> simp [Op.apply, start_mode, countdown_in_range] <;> omega
  | restart t D =>
    obtain ⟨ht, hD, hcase⟩ := hop
    simp only at hcase
    cases o
    · have hs1 := hs rfl
      cases p
      · have hDs : D ≤ s ∧ t + s < 2147483648 := by simpa using hcase
        have hfit : to_int32 (t + s) = t + s := to_int32_of_fits _ (by omega) hDs.2
        simp only [Op.apply, restart, init_settings, persist_status, persist_config,
          countdown_in_range, Bool.false_eq_true, if_false, hfit]
        refine ⟨hw, hr, fun _ => ?_⟩
        split_ifs <;> omega
      · have hfit : to_int32 s = s := to_int32_of_fits _ (by omega) (by omega)
        have hsmall : ¬ (s > 10000000) := by omega
        simp only [Op.apply, restart, init_settings, persist_status, persist_config,
          countdown_in_range, if_true, hfit, hsmall, if_false]
        exact ⟨hw, hr, fun _ => hs1⟩
    · simp only [Op.apply, restart, init_settings, persist_status, persist_config,
        countdown_in_range]
      exact ⟨hw, hr, fun h => absurd h (by decide)⟩

/-- An admissible run keeps `countdown_in_range`. -/
theorem run_countdown_in_range (ops : List Op) (g : Globals)
    (hg : countdown_in_range g) (hops : admissible ops g) :
    countdown_in_range (run ops g) := by
  induction ops generalizing g with
  | nil => exact hg
  | cons op rest ih =>
    exact ih (op.apply g) (apply_countdown_in_range op g hg hops.1) hops.2

/-! ## The tick handler -/

/-- C1. A tick on a running timer with overrun off: when the decremented
countdown is `≤ 0` the result is that of `start_mode` on the opposite phase
(phase flipped, countdown set to the interval of the new phase, running,
double pulse on entering rest and short pulse on entering work); when it is
`> 0` only the countdown changes, by one, and nothing vibrates. The
configuration is unchanged in both cases. -/
theorem C1_tick_no_overrun (g : Globals)
    (hrun : g.s_countdown_paused = false) (hov : g.config_overrunable = false) :
    (g.s_countdown_seconds - 1 ≤ 0 →
      time_tick_handler g = start_mode (!g.s_in_rest_mode) g ∧
      time_tick_handler g =
        ({ g with
            s_in_rest_mode := !g.s_in_rest_mode
            s_countdown_seconds :=
              if g.s_in_rest_mode then g.config_work_interval
              else g.config_rest_interval
            s_countdown_paused := false },
         [if g.s_in_rest_mode then Vibe.short_pulse else Vibe.double_pulse])) ∧
    (g.s_countdown_seconds - 1 > 0 →
      time_tick_handler g =
        ({ g with s_countdown_seconds := g.s_countdown_seconds - 1 }, [])) ∧
    (time_tick_handler g).1.config_work_interval = g.config_work_interval ∧
    (time_tick_handler g).1.config_rest_interval = g.config_rest_interval ∧
    (time_tick_handler g).1.config_overrunable = g.config_overrunable := by
  refine ⟨?_, ?_, tick_config g⟩
  · intro h
    cases hm : g.s_in_rest_mode <;>
      simp [time_tick_handler, start_mode, hrun, hov, h, hm]
  · intro h
    have h1 : ¬ (g.s_countdown_seconds - 1 ≤ 0) := by omega
    simp [time_tick_handler, hrun, h1]

/-- C1, at the boundary: running in work mode with one second left and
overrun off, the tick enters rest mode with the whole rest interval. -/
theorem C1_tick_no_overrun_witness :
    time_tick_handler
        { initial 1800 300 false with s_countdown_paused := false, s_countdown_seconds := 1 } =
      ({ initial 1800 300 false with
          s_in_rest_mode := true, s_countdown_paused := false, s_countdown_seconds := 300 },
       [Vibe.double_pulse]) :=
  ((C1_tick_no_overrun
      { initial 1800 300 false with s_countdown_paused := false, s_countdown_seconds := 1 }
      rfl rfl).1 (by decide)).2

/-- C2. A tick on a running timer with overrun on, at any countdown value:
the countdown drops by exactly one, phase, paused flag and configuration stay,
and the short pulse fires exactly when the new countdown is one of
`0, -60, -120, ...` (otherwise nothing fires). The handler's own test,
`≤ 0` and truncating remainder by 60 equal to 0, holds at exactly those
values, the truncating remainder being 0 exactly at the multiples of 60,
negative ones included. -/
theorem C2_tick_overrun (g : Globals)
    (hrun : g.s_countdown_paused = false) (hov : g.config_overrunable = true) :
    (time_tick_handler g).1 =
      { g with s_countdown_seconds := g.s_countdown_seconds - 1 } ∧
    ((time_tick_handler g).2 = [Vibe.short_pulse] ↔
      ∃ m : Nat, g.s_countdown_seconds - 1 = -(60 * (m : Int))) ∧
    ((¬ ∃ m : Nat, g.s_countdown_seconds - 1 = -(60 * (m : Int))) →
      (time_tick_handler g).2 = []) ∧
    ((g.s_countdown_seconds - 1 ≤ 0 ∧ (g.s_countdown_seconds - 1).tmod 60 = 0) ↔
      ∃ m : Nat, g.s_countdown_seconds - 1 = -(60 * (m : Int))) ∧
    ((g.s_countdown_seconds - 1).tmod 60 = 0 ↔ (60 : Int) ∣ g.s_countdown_seconds - 1) := by
  have key := minute_boundary_iff (g.s_countdown_seconds - 1)
  have hdvd := tmod_sixty_eq_zero_iff (g.s_countdown_seconds - 1)
  rw [← key, tick_running_overrun g hrun hov]
  by_cases h : g.s_countdown_seconds - 1 ≤ 0 ∧ (g.s_countdown_seconds - 1).tmod 60 = 0
  · rw [if_pos h]
    exact ⟨rfl, ⟨fun _ => h, fun _ => rfl⟩, fun hn => absurd h hn, Iff.rfl, hdvd⟩
  · rw [if_neg h]
    exact ⟨rfl, ⟨fun hv => by simp at hv, fun hp => absurd hp h⟩, fun _ => rfl, Iff.rfl, hdvd⟩

/-- C2, one minute into overrun: from `-59` the tick reaches `-60` and the
short pulse fires. -/
theorem C2_tick_overrun_witness :
    (time_tick_handler
        { initial 1800 300 true with s_countdown_paused := false, s_countdown_seconds := -59 }).1 =
      { initial 1800 300 true with s_countdown_paused := false, s_countdown_seconds := -60 } ∧
    (time_tick_handler
        { initial 1800 300 true with s_countdown_paused := false, s_countdown_seconds := -59 }).2 =
      [Vibe.short_pulse] :=
  ⟨(C2_tick_overrun
      { initial 1800 300 true with s_countdown_paused := false, s_countdown_seconds := -59 }
      rfl rfl).1,
   (C2_tick_overrun
      { initial 1800 300 true with s_countdown_paused := false, s_countdown_seconds := -59 }
      rfl rfl).2.1.2 ⟨1, by decide⟩⟩

/-- C9. A tick on a paused timer returns the globals as they are and fires
nothing, whatever the countdown, phase and configuration; and no tick, paused
or running, changes the work interval, the rest interval or the overrun
setting. -/
theorem C9_tick_paused_noop :
    (∀ g : Globals, g.s_countdown_paused = true → time_tick_handler g = (g, [])) ∧
    (∀ g : Globals,
      (time_tick_handler g).1.config_work_interval = g.config_work_interval ∧
      (time_tick_handler g).1.config_rest_interval = g.config_rest_interval ∧
      (time_tick_handler g).1.config_overrunable = g.config_overrunable) := by
  refine ⟨?_, tick_config⟩
  intro g hp
  simp [time_tick_handler, hp]

/-- C9, on a paused timer whose countdown is a negative multiple of 60. -/
theorem C9_tick_paused_noop_witness :
    time_tick_handler { initial 1800 300 true with s_countdown_seconds := -60 } =
      ({ initial 1800 300 true with s_countdown_seconds := -60 }, []) :=
  C9_tick_paused_noop.1 { initial 1800 300 true with s_countdown_seconds := -60 } rfl

/-! ## Toggle pause -/

/-- C8. One toggle negates the paused flag and leaves countdown, phase and
configuration as they are; two toggles in a row give back the original
globals. -/
theorem C8_toggle_involution (g : Globals) :
    select_single_click_handler g =
      { g with s_countdown_paused := !g.s_countdown_paused } ∧
    (select_single_click_handler g).s_countdown_paused = !g.s_countdown_paused ∧
    (select_single_click_handler g).s_countdown_seconds = g.s_countdown_seconds ∧
    (select_single_click_handler g).s_in_rest_mode = g.s_in_rest_mode ∧
    (select_single_click_handler g).config_work_interval = g.config_work_interval ∧
    (select_single_click_handler g).config_rest_interval = g.config_rest_interval ∧
    (select_single_click_handler g).config_overrunable = g.config_overrunable ∧
    select_single_click_handler (select_single_click_handler g) = g := by
  refine ⟨rfl, rfl, rfl, rfl, rfl, rfl, rfl, ?_⟩
  cases g
  simp [select_single_click_handler]

/-! ## Wake-up scheduling -/

/-- C6. For a running timer with a positive countdown `r`, the instant
`deinit` hands to `wakeup_schedule` is `now - 15 + r` when `r > 18` and
`now - 15 + r + 60` when `r ≤ 18`. -/
theorem C6_wake_target (p : Persist) (g : Globals) (now_persist now : Int)
    (hrun : g.s_countdown_paused = false) (hpos : 0 < g.s_countdown_seconds) :
    (18 < g.s_countdown_seconds →
      (deinit p g now_persist now).2 = some (now - 15 + g.s_countdown_seconds)) ∧
    (g.s_countdown_seconds ≤ 18 →
      (deinit p g now_persist now).2 = some (now - 15 + g.s_countdown_seconds + 60)) := by
  have hnv : next_vibra g = g.s_countdown_seconds := by
    simp [next_vibra, hpos]
  constructor
  · intro h
    simp [deinit, wakeup_time, hrun, hnv, h]
  · intro h
    have h1 : ¬ (18 < g.s_countdown_seconds) := by omega
    simp [deinit, wakeup_time, hrun, hnv, h1]
    ring

/-- C6, the two instances of the specification: 5 seconds left give
`now + 50`, 30 seconds left give `now + 15` (here with `now = 1000`). -/
theorem C6_wake_target_witness :
    (deinit emptyPersist
        { initial 1800 300 true with s_countdown_paused := false, s_countdown_seconds := 5 }
        1000 1000).2 = some (1000 + 50) ∧
    (deinit emptyPersist
        { initial 1800 300 true with s_countdown_paused := false, s_countdown_seconds := 30 }
        1000 1000).2 = some (1000 + 15) :=
  ⟨(C6_wake_target emptyPersist
      { initial 1800 300 true with s_countdown_paused := false, s_countdown_seconds := 5 }
      1000 1000 rfl (by decide)).2 (by decide),
   (C6_wake_target emptyPersist
      { initial 1800 300 true with s_countdown_paused := false, s_countdown_seconds := 30 }
      1000 1000 rfl (by decide)).1 (by decide)⟩

/-- C7. For a running timer in overrun (overrun on, countdown `r ≤ 0`) the
offset `deinit` computes, `60 + r % 60` with the truncating remainder, lies
between 1 and 60, `r` minus the offset is one of `0, -60, -120, ...`, the
tick with that number fires the minute-boundary short pulse, and no earlier
tick fires anything. -/
theorem C7_wake_offset_overrun (g : Globals)
    (hrun : g.s_countdown_paused = false) (hov : g.config_overrunable = true)
    (hr : g.s_countdown_seconds ≤ 0) :
    next_vibra g = 60 + g.s_countdown_seconds.tmod 60 ∧
    1 ≤ next_vibra g ∧ next_vibra g ≤ 60 ∧
    (∃ m : Nat, g.s_countdown_seconds - next_vibra g = -(60 * (m : Int))) ∧
    tick_vibes g (next_vibra g).toNat = [Vibe.short_pulse] ∧
    (∀ k : Nat, 1 ≤ k → (k : Int) < next_vibra g → tick_vibes g k = []) := by
  have hnv : next_vibra g = 60 + g.s_countdown_seconds.tmod 60 := by
    have : ¬ (g.s_countdown_seconds > 0) := by omega
    simp only [next_vibra, this, if_false]
  have hm := tmod_sixty_of_nonpos g.s_countdown_seconds hr
  have hlo : 1 ≤ next_vibra g := by omega
  have hhi : next_vibra g ≤ 60 := by omega
  have hbound : g.s_countdown_seconds - next_vibra g ≤ 0 ∧
      (g.s_countdown_seconds - next_vibra g).tmod 60 = 0 := by
    refine ⟨by omega, ?_⟩
    rw [tmod_sixty_of_nonpos _ (by omega)]
    omega
  refine ⟨hnv, hlo, hhi, (minute_boundary_iff _).1 hbound, ?_, ?_⟩
  · have hk : 1 ≤ (next_vibra g).toNat := by omega
    have hcast : (((next_vibra g).toNat : Nat) : Int) = next_vibra g := by omega
    rw [tick_vibes_overrun g _ hk hrun hov, hcast, if_pos hbound]
  · intro k hk1 hk2
    have hne : ¬ (g.s_countdown_seconds - (k : Int) ≤ 0 ∧
        (g.s_countdown_seconds - (k : Int)).tmod 60 = 0) := by
      rintro ⟨_, h0⟩
      rw [tmod_sixty_of_nonpos _ (by omega)] at h0
      omega
    rw [tick_vibes_overrun g k hk1 hrun hov, if_neg hne]

/-- C7, one second into overrun: the offset is 59, the 59th tick (reaching
`-60`) fires the short pulse and the 58th does not. -/
theorem C7_wake_offset_overrun_witness :
    next_vibra { initial 1800 300 true with s_countdown_paused := false, s_countdown_seconds := -1 } =
      60 + (-1 : Int).tmod 60 ∧
    tick_vibes { initial 1800 300 true with s_countdown_paused := false, s_countdown_seconds := -1 }
      (next_vibra
        { initial 1800 300 true with s_countdown_paused := false, s_countdown_seconds := -1 }).toNat =
      [Vibe.short_pulse] ∧
    tick_vibes { initial 1800 300 true with s_countdown_paused := false, s_countdown_seconds := -1 }
      58 = [] :=
  ⟨(C7_wake_offset_overrun
      { initial 1800 300 true with s_countdown_paused := false, s_countdown_seconds := -1 }
      rfl rfl (by decide)).1,
   (C7_wake_offset_overrun
      { initial 1800 300 true with s_countdown_paused := false, s_countdown_seconds := -1 }
      rfl rfl (by decide)).2.2.2.2.1,
   (C7_wake_offset_overrun
      { initial 1800 300 true with s_countdown_paused := false, s_countdown_seconds := -1 }
      rfl rfl (by decide)).2.2.2.2.2 58 (by decide) (by decide)⟩

/-! ## Countdown traces -/

/-- C10. With overrun off and a work interval `D ≥ 1`, from the state
`start_mode(false)` produces (work mode, running, countdown `D`): after `k`
ticks, for every `k < D`, the state is work mode, running, countdown `D - k`;
after exactly `D` ticks it is rest mode, running, countdown the rest
interval. -/
theorem C10_countdown_trace (g : Globals)
    (hov : g.config_overrunable = false) (hD : 1 ≤ g.config_work_interval) :
    (start_mode false g).1 =
      { g with s_in_rest_mode := false, s_countdown_paused := false,
               s_countdown_seconds := g.config_work_interval } ∧
    (∀ k : Nat, (k : Int) < g.config_work_interval →
      ticks k (start_mode false g).1 =
        { g with s_in_rest_mode := false, s_countdown_paused := false,
                 s_countdown_seconds := g.config_work_interval - (k : Int) }) ∧
    (∀ n : Nat, (n : Int) = g.config_work_interval →
      ticks n (start_mode false g).1 =
        { g with s_in_rest_mode := true, s_countdown_paused := false,
                 s_countdown_seconds := g.config_rest_interval }) := by
  have hs : (start_mode false g).1 =
      { g with s_in_rest_mode := false, s_countdown_paused := false,
               s_countdown_seconds := g.config_work_interval } := by
    simp [start_mode]
  have hlt : ∀ k : Nat, (k : Int) < g.config_work_interval →
      ticks k (start_mode false g).1 =
        { g with s_in_rest_mode := false, s_countdown_paused := false,
                 s_countdown_seconds := g.config_work_interval - (k : Int) } := by
    intro k hk
    rw [hs]
    exact ticks_countdown k _ rfl hk
  refine ⟨hs, hlt, ?_⟩
  intro n hn
  obtain ⟨m, rfl⟩ : ∃ m, n = m + 1 := ⟨n - 1, by omega⟩
  rw [ticks_succ, hlt m (by push_cast at hn; omega)]
  have hlast : g.config_work_interval - (m : Int) - 1 ≤ 0 := by push_cast at hn; omega
  simp [time_tick_handler, start_mode, hov, hlast]

/-- C10, the scenario of the specification: work 1800 s, rest 300 s, overrun
off; 1800 ticks after starting work the timer is in rest mode with 300 s
left. -/
theorem C10_countdown_trace_witness :
    ticks 1800 (start_mode false (initial 1800 300 false)).1 =
      { initial 1800 300 false with
          s_in_rest_mode := true, s_countdown_paused := false, s_countdown_seconds := 300 } :=
  (C10_countdown_trace (initial 1800 300 false) rfl (by decide)).2.2 1800 rfl

/-! ## Persistence and restart reconciliation -/

/-- C3, in the form that holds of the code. For a countdown within the range
of a 32-bit `int` and clock readings `t ≥ 0` and `t + D < 2^31` with `D ≥ 0`:
writing the status at time `t` and reading it back at time `t + D` restores
phase and paused flag; the countdown comes back unchanged for a paused timer
whose countdown is at most 10000000, and reduced by `D` for a running timer
whose expiry time `t + countdown` is above 10000000 and below `2^31`.
A stored value on the other side of 10000000 is read in the other encoding:
a paused countdown above 10000000 comes back reduced by `t + D`, a running
one with `t + countdown ≤ 10000000` comes back as `t + countdown`. In every
case the restored countdown is within the range of a 32-bit `int`. -/
theorem C3_persist_reconcile (p : Persist) (g : Globals) (t D : Int)
    (hs : -2147483648 ≤ g.s_countdown_seconds ∧ g.s_countdown_seconds < 2147483648)
    (ht : 0 ≤ t) (hD : 0 ≤ D) (htD : t + D < 2147483648) :
    (init_settings (persist_status p g t) (t + D)).s_in_rest_mode = g.s_in_rest_mode ∧
    (init_settings (persist_status p g t) (t + D)).s_countdown_paused =
      g.s_countdown_paused ∧
    (g.s_countdown_paused = true → g.s_countdown_seconds ≤ 10000000 →
      (init_settings (persist_status p g t) (t + D)).s_countdown_seconds =
        g.s_countdown_seconds) ∧
    (g.s_countdown_paused = false → 10000000 < t + g.s_countdown_seconds →
      t + g.s_countdown_seconds < 2147483648 →
      (init_settings (persist_status p g t) (t + D)).s_countdown_seconds =
        g.s_countdown_seconds - D) ∧
    (g.s_countdown_paused = true → 10000000 < g.s_countdown_seconds →
      (init_settings (persist_status p g t) (t + D)).s_countdown_seconds =
        g.s_countdown_seconds - (t + D)) ∧
    (g.s_countdown_paused = false → t + g.s_countdown_seconds ≤ 10000000 →
      (init_settings (persist_status p g t) (t + D)).s_countdown_seconds =
        t + g.s_countdown_seconds) ∧
    (-2147483648 ≤ (init_settings (persist_status p g t) (t + D)).s_countdown_seconds ∧
      (init_settings (persist_status p g t) (t + D)).s_countdown_seconds < 2147483648) := by
  have hpaused : to_int32 g.s_countdown_seconds = g.s_countdown_seconds :=
    to_int32_of_fits _ hs.1 hs.2
  refine ⟨rfl, rfl, ?_, ?_, ?_, ?_, ?_⟩
  · intro hp h
    have h1 : ¬ (g.s_countdown_seconds > 10000000) := by omega
    simp only [init_settings, persist_status, hp, if_true, hpaused, h1, if_false]
  · intro hp h hfit
    have h1 : t + g.s_countdown_seconds > 10000000 := h
    have h2 : to_int32 (t + g.s_countdown_seconds) = t + g.s_countdown_seconds :=
      to_int32_of_fits _ (by omega) hfit
    simp only [init_settings, persist_status, hp, Bool.false_eq_true, if_false, h2, h1,
      if_true]
    omega
  · intro hp h
    have h1 : g.s_countdown_seconds > 10000000 := h
    simp only [init_settings, persist_status, hp, if_true, hpaused, h1]
  · intro hp h
    have h1 : ¬ (t + g.s_countdown_seconds > 10000000) := by omega
    have h2 : to_int32 (t + g.s_countdown_seconds) = t + g.s_countdown_seconds :=
      to_int32_of_fits _ (by omega) (by omega)
    simp only [init_settings, persist_status, hp, Bool.false_eq_true, if_false, h2, h1]
  · cases hp : g.s_countdown_paused with
    | true =>
      simp only [init_settings, persist_status, hp, if_true, hpaused]
      split_ifs <;> omega
    | false =>
      have hfits := to_int32_fits (t + g.s_countdown_seconds)
      simp only [init_settings, persist_status, hp, Bool.false_eq_true, if_false]
      split_ifs <;> omega

/-- C3, on a timer that runs with 1800 s left, stopped at clock reading
1700000000 and started again 2000 s later: 200 s into overrun. -/
theorem C3_persist_reconcile_witness :
    (init_settings
        (persist_status emptyPersist
          { initial 1800 300 true with s_countdown_paused := false } 1700000000)
        (1700000000 + 2000)).s_countdown_seconds = 1800 - 2000 :=
  (C3_persist_reconcile emptyPersist
      { initial 1800 300 true with s_countdown_paused := false } 1700000000 2000
      (by decide) (by decide) (by decide) (by decide)).2.2.2.1
    rfl (by decide) (by decide)

/-- C3 as stated fails in three ways: a paused countdown of 10000001 does
not come back as itself; a running countdown of 1800 persisted at clock
reading 9000000 does not come back reduced by the delay of 60; and a running
countdown of 1800 persisted at clock reading 2147483000, where the expiry
time does not fit 32 bits, comes back as `-2147482496` after a delay of
60. -/
theorem C3_counterexample :
    (init_settings
        (persist_status emptyPersist
          { initial 1800 300 true with s_countdown_seconds := 10000001 } 1700000000)
        (1700000000 + 60)).s_countdown_seconds = 10000001 - 1700000060 ∧
    (init_settings
        (persist_status emptyPersist
          { initial 1800 300 true with s_countdown_seconds := 10000001 } 1700000000)
        (1700000000 + 60)).s_countdown_seconds ≠ 10000001 ∧
    (init_settings
        (persist_status emptyPersist
          { initial 1800 300 true with s_countdown_paused := false } 9000000)
        (9000000 + 60)).s_countdown_seconds = 9001800 ∧
    (init_settings
        (persist_status emptyPersist
          { initial 1800 300 true with s_countdown_paused := false } 9000000)
        (9000000 + 60)).s_countdown_seconds ≠ 1800 - 60 ∧
    (init_settings
        (persist_status emptyPersist
          { initial 1800 300 true with s_countdown_paused := false } 2147483000)
        (2147483000 + 60)).s_countdown_seconds = -2147482496 ∧
    (init_settings
        (persist_status emptyPersist
          { initial 1800 300 true with s_countdown_paused := false } 2147483000)
        (2147483000 + 60)).s_countdown_seconds ≠ 1800 - 60 := by
  decide

/-- C4, in the form that holds of the code. For a stored countdown value `a` and clock reading
`now`, `init_settings` restores the countdown `a` when `a ≤ 10000000` and
`a - now` when `a > 10000000`; the stored paused and in-rest flags are
restored as they are, whatever `a`. -/
theorem C4_reconcile_rule (p : Persist) (a now : Int)
    (ha : p.countdown_expire = some a) :
    (a ≤ 10000000 → (init_settings p now).s_countdown_seconds = a) ∧
    (10000000 < a → (init_settings p now).s_countdown_seconds = a - now) ∧
    (∀ b : Bool, p.countdown_paused = some b →
      (init_settings p now).s_countdown_paused = b) ∧
    (∀ b : Bool, p.in_rest_mode = some b →
      (init_settings p now).s_in_rest_mode = b) := by
  refine ⟨?_, ?_, ?_, ?_⟩
  · intro h
    have h1 : ¬ (a > 10000000) := by omega
    simp only [init_settings, ha, h1, if_false]
  · intro h
    have h1 : a > 10000000 := h
    simp only [init_settings, ha, h1, if_true]
  · intro b hb
    simp only [init_settings, hb]
  · intro b hb
    simp only [init_settings, hb]

/-- C4, on a record written while running: expiry at 1700001800 read at
1700000000 leaves 1800 s, paused flag false and in-rest flag true as
stored. -/
theorem C4_reconcile_rule_witness :
    (init_settings
        { emptyPersist with
            countdown_expire := some 1700001800
            countdown_paused := some false
            in_rest_mode := some true }
        1700000000).s_countdown_seconds = 1700001800 - 1700000000 ∧
    (init_settings
        { emptyPersist with
            countdown_expire := some 1700001800
            countdown_paused := some false
            in_rest_mode := some true }
        1700000000).s_in_rest_mode = true :=
  ⟨(C4_reconcile_rule
      { emptyPersist with
          countdown_expire := some 1700001800
          countdown_paused := some false
          in_rest_mode := some true }
      1700001800 1700000000 rfl).2.1 (by decide),
   (C4_reconcile_rule
      { emptyPersist with
          countdown_expire := some 1700001800
          countdown_paused := some false
          in_rest_mode := some true }
      1700001800 1700000000 rfl).2.2.2 true rfl⟩

/-- C4 as stated fails at the threshold itself: the stored value 10000000 is
restored as it is, not reduced by the clock reading. -/
theorem C4_counterexample :
    (init_settings { emptyPersist with countdown_expire := some 10000000 }
        1700000000).s_countdown_seconds = 10000000 ∧
    (init_settings { emptyPersist with countdown_expire := some 10000000 }
        1700000000).s_countdown_seconds ≠ 10000000 - 1700000000 := by
  decide

/-! ## The sign of the countdown -/

/-- C5, in the form that holds of the code. With both durations between 1 and 10000000, in every
state reached from the initial state (work mode, paused, countdown the work
interval) by ticks, pause toggles, `start_mode` calls and restarts, where
each restart happens at a non-negative clock reading after a non-negative
delay and, for a timer running with overrun off, the delay does not exceed
the countdown and the expiry time (clock reading plus countdown) is below
`2^31`: a negative countdown implies that overrun is on. -/
theorem C5_negative_implies_overrun (work rest : Int) (overrunable : Bool)
    (ops : List Op)
    (hw : 0 < work ∧ work ≤ 10000000) (hr : 0 < rest ∧ rest ≤ 10000000)
    (hops : admissible ops (initial work rest overrunable)) :
    (run ops (initial work rest overrunable)).s_countdown_seconds < 0 →
      (run ops (initial work rest overrunable)).config_overrunable = true := by
  have h0 : countdown_in_range (initial work rest overrunable) :=
    ⟨hw, hr, fun _ => ⟨by show 0 ≤ work; omega, hw.2⟩⟩
  have h := (run_countdown_in_range ops _ h0 hops).2.2
  intro hneg
  cases hov : (run ops (initial work rest overrunable)).config_overrunable with
  | true => rfl
  | false =>
    have := h hov
    omega

/-- C5, on a run with overrun on: start, run 30 s past the end of the work
interval across a restart; the countdown is negative and overrun is on. -/
theorem C5_negative_implies_overrun_witness :
    (run [Op.toggle, Op.tick, Op.restart 1700000000 1829]
        (initial 1800 300 true)).s_countdown_seconds < 0 ∧
    (run [Op.toggle, Op.tick, Op.restart 1700000000 1829]
        (initial 1800 300 true)).config_overrunable = true :=
  ⟨by decide,
   C5_negative_implies_overrun 1800 300 true
     [Op.toggle, Op.tick, Op.restart 1700000000 1829]
     (by decide) (by decide)
     ⟨trivial, trivial, ⟨by decide, by decide, Or.inr (Or.inl rfl)⟩, trivial⟩
     (by decide)⟩

/-- C5 as stated fails in three ways. From the first-run state (defaults:
work 1800 s, overrun on), un-pausing, 1801 ticks and pausing give a paused
timer with countdown `-1`. With overrun off, un-pausing and restarting 1801 s
later gives a running timer with countdown `-1`. And with overrun off,
un-pausing and restarting at clock reading 2147483000, where the expiry time
does not fit 32 bits, gives countdown `-2147482496` even after a delay of
60 s only. -/
theorem C5_counterexample :
    run (Op.toggle :: (List.replicate 1801 Op.tick ++ [Op.toggle]))
        (init_settings emptyPersist 1700000000) =
      { initial 1800 300 true with s_countdown_paused := true, s_countdown_seconds := -1 } ∧
    run [Op.toggle, Op.restart 1700000000 1801] (initial 1800 300 false) =
      { initial 1800 300 false with s_countdown_paused := false, s_countdown_seconds := -1 } ∧
    run [Op.toggle, Op.restart 2147483000 60] (initial 1800 300 false) =
      { initial 1800 300 false with
          s_countdown_paused := false, s_countdown_seconds := -2147482496 } := by
  refine ⟨?_, ?_, ?_⟩
  · rw [run_cons, run_ticks, ticks_overrun 1801 _ rfl rfl]
    simp [run, Op.apply, select_single_click_handler, init_settings, emptyPersist, initial,
      DEFAULT_WORK_INTERVAL, DEFAULT_REST_INTERVAL, DEFAULT_OVERRUNABLE]
  · decide
  · decide

end RestTime
